import Mathlib

/-!
Verification of the `setting` module of the veusz repository
(src/setting/setting.py): a typed-value container for configuration
settings.  Python values are embedded shallowly as `PyVal`; each setting
class becomes a `VariantPolicy` record of its `convertTo` / `convertFrom` /
`toText` / `fromText` methods, and the mutable `Setting` object state
(`default`, `val`, `onmodified`) becomes `SettingState` with explicit
state-passing operations.  Observer invocation is modelled by the trace of
`(observer, signal)` events a call produces.  Python floats (IEEE doubles)
are not modelled bit-for-bit: the development is parametric in a
`FloatModel` whose documented properties (`GoodFloat`) capture the CPython
guarantees used by the code, chiefly that `float(str(x)) == x`.
-/

namespace Veusz

/-- Characters removed by Python `str.strip()` (the ASCII whitespace
fragment, which covers every string the settings code manipulates). -/
def pySpaceChar (c : Char) : Bool :=
  c = ' ' || c = '\t' || c = '\n' || c = '\r' || c = '\x0b' || c = '\x0c'

/-- Python `str.lower()` on one character (ASCII fragment). -/
def pyLowerChar (c : Char) : Char :=
  if 'A' ≤ c ∧ c ≤ 'Z' then Char.ofNat (c.toNat + 32) else c

/-- Python `str.lower()` (ASCII fragment). -/
def pyLower (s : String) : String := ⟨s.data.map pyLowerChar⟩

/-- Characters of a string with leading and trailing whitespace removed. -/
def pyStripChars (l : List Char) : List Char :=
  ((l.dropWhile pySpaceChar).reverse.dropWhile pySpaceChar).reverse

/-- Python `str.strip()` with no argument: drop surrounding whitespace. -/
def pyStrip (s : String) : String := ⟨pyStripChars s.data⟩

/-- The decimal digit character for `d < 10`. -/
def digitCh (d : Nat) : Char := Char.ofNat (48 + d)

/-- Is `c` an ASCII decimal digit? -/
def isDigitCh (c : Char) : Bool := '0' ≤ c && c ≤ '9'

/-- Numeric value of an ASCII digit character. -/
def digitVal (c : Char) : Nat := c.toNat - 48

/-- Parse a nonempty all-digit character list as a natural number
(the digit part of CPython `int(text)`). -/
def parseNatChars (l : List Char) : Option Nat :=
  if l.isEmpty then none
  else if l.all isDigitCh then
    some (l.foldl (fun a c => 10 * a + digitVal c) 0)
  else none

/-- Python `str(n)` for a natural number: its decimal numeral. -/
def pyStrOfNat (n : Nat) : String :=
  if n = 0 then "0" else ⟨((Nat.digits 10 n).map digitCh).reverse⟩

/-- Python `str(n)` for an arbitrary integer. -/
def pyStrOfInt (n : Int) : String :=
  if n < 0 then "-" ++ pyStrOfNat n.natAbs else pyStrOfNat n.natAbs

/-- Sign handling of CPython `int(text)` on an already-stripped character
list: an optional single sign followed by decimal digits. -/
def pyIntParseChars : List Char → Option Int
  | [] => none
  | c :: rest =>
    if c = '-' then (parseNatChars rest).map (fun n => -(n : Int))
    else if c = '+' then (parseNatChars rest).map (fun n => (n : Int))
    else (parseNatChars (c :: rest)).map (fun n => (n : Int))

/-- CPython `int(text)`: strip whitespace, optional sign, decimal digits;
`none` models the `ValueError` raised on anything else. -/
def pyIntParse (s : String) : Option Int :=
  pyIntParseChars (pyStripChars s.data)

/-- Abstract model of the CPython `float` runtime type: the carrier `F`
together with equality (`x == y`), conversion `float(n)` from an integer,
printing `str(x)`, parsing `float(text)` (`none` models `ValueError`), and
mixed comparison `x == n` against an integer. -/
structure FloatModel where
  F : Type
  beq : F → F → Bool
  ofInt : Int → F
  toStr : F → String
  parse : String → Option F
  eqInt : F → Int → Bool

/-- The facts about the CPython float runtime that the settings code relies
on: `x == x`; `float(str(x)) == x` (CPython repr round-trips every finite
float); `str(x)` is never a spelling of "auto"; and `float(n) == n`. -/
def GoodFloat (M : FloatModel) : Prop :=
  (∀ x, M.beq x x = true) ∧
  (∀ x, M.parse (M.toStr x) = some x) ∧
  (∀ x, pyLower (pyStrip (M.toStr x)) ≠ "auto") ∧
  (∀ n, M.eqInt (M.ofInt n) n = true)

/-- The Python values the settings code passes around. -/
inductive PyVal (F : Type) where
  | none : PyVal F
  | bool : Bool → PyVal F
  | int : Int → PyVal F
  | float : F → PyVal F
  | str : String → PyVal F
  deriving DecidableEq

/-- Python `==` on the embedded values, including the cross-type numeric
equalities (`True == 1`, `1 == 1.0`) and `x == None` checks the code uses. -/
def pyEq (M : FloatModel) : PyVal M.F → PyVal M.F → Bool
  | .none, .none => true
  | .bool a, .bool b => a == b
  | .bool a, .int n => (if a then (1 : Int) else 0) == n
  | .int n, .bool a => n == (if a then (1 : Int) else 0)
  | .int m, .int n => m == n
  | .int n, .float x => M.eqInt x n
  | .float x, .int n => M.eqInt x n
  | .float x, .float y => M.beq x y
  | .bool a, .float x => M.eqInt x (if a then 1 else 0)
  | .float x, .bool a => M.eqInt x (if a then 1 else 0)
  | .str s, .str t => s == t
  | _, _ => false

/-- Python truthiness of an embedded value (`if val:`). -/
def pyTruthy (M : FloatModel) : PyVal M.F → Bool
  | .none => false
  | .bool b => b
  | .int n => n != 0
  | .float x => !(M.eqInt x 0)
  | .str s => s != ""

/-- Python `str(val)` on an embedded value. -/
def pyStr (M : FloatModel) : PyVal M.F → String
  | .none => "None"
  | .bool b => if b then "True" else "False"
  | .int n => pyStrOfInt n
  | .float x => M.toStr x
  | .str s => s

/-- Python `val in list` membership, which compares with `==`. -/
def pyMem (M : FloatModel) (v : PyVal M.F) (l : List (PyVal M.F)) : Bool :=
  l.any (fun x => pyEq M x v)

/-- The mutable fields of a `Setting` object: `self.default`, `self.val`
and the registered `self.onmodified` callbacks (identified by handles, in
registration order).  `name` and `descr` play no part in any behaviour. -/
structure SettingState (F : Type) where
  default : PyVal F
  val : PyVal F
  onmodified : List Nat
  deriving DecidableEq

/-- The per-variant policy: the four methods each `Setting` subclass
overrides.  `Except Unit` models raising `InvalidType`. -/
structure VariantPolicy (F : Type) where
  convertTo : PyVal F → Except Unit (PyVal F)
  convertFrom : PyVal F → PyVal F
  toText : PyVal F → String
  fromText : String → Except Unit (PyVal F)

/-- `Setting.set`: `self.val = self.convertTo(val)` then call each
`onmodified` callback with `True`.  The exception from `convertTo`
propagates before the assignment, so on failure the state is returned
unchanged and no observer event occurs.  On success the result carries the
trace of `(callback, True)` events in registration order. -/
def setOp {F : Type} (P : VariantPolicy F) (st : SettingState F)
    (v : PyVal F) : SettingState F × Except Unit (List (Nat × Bool)) :=
  match P.convertTo v with
  | .error e => (st, .error e)
  | .ok w =>
    ({ st with val := w }, .ok (st.onmodified.map (fun i => (i, true))))

/-- `Setting.get`: `self.convertFrom(self.val)`. -/
def getOp {F : Type} (P : VariantPolicy F) (st : SettingState F) : PyVal F :=
  P.convertFrom st.val

/-- `Setting.__init__`: store the default, start with no observers, then
`self.set(val)` (whose observer loop is over the still-empty list). -/
def initSetting {F : Type} (P : VariantPolicy F) (x : PyVal F) :
    Except Unit (SettingState F) :=
  match P.convertTo x with
  | .error e => .error e
  | .ok w => .ok ⟨x, w, []⟩

/-- `Setting.newDefault`: `self.default = val` and then `self.set(val)`.
The default is replaced before `set` runs, so a failing `set` leaves the
new default in place. -/
def newDefaultOp {F : Type} (P : VariantPolicy F) (st : SettingState F)
    (x : PyVal F) : SettingState F × Except Unit (List (Nat × Bool)) :=
  match P.convertTo x with
  | .error e => ({ st with default := x }, .error e)
  | .ok w =>
    ({ st with default := x, val := w },
      .ok (st.onmodified.map (fun i => (i, true))))

/-- `Setting.setOnModified`: append a callback to the observer list. -/
def setOnModifiedOp {F : Type} (st : SettingState F) (i : Nat) :
    SettingState F :=
  { st with onmodified := st.onmodified ++ [i] }

/-- `Setting.isDefault`: `self.get() == self.default` under Python
equality. -/
def isDefaultOp (M : FloatModel) (P : VariantPolicy M.F)
    (st : SettingState M.F) : Bool :=
  pyEq M (getOp P st) st.default

/-- A state whose `val` was produced by running `convertTo` on its
`default` — the common shape produced by `__init__` and by a successful
`newDefault`. -/
def assigned {F : Type} (P : VariantPolicy F) (st : SettingState F) : Prop :=
  P.convertTo st.default = .ok st.val

/-- The `Str` setting class: accepts exactly strings, identity text form. -/
def StrP (M : FloatModel) : VariantPolicy M.F where
  convertTo := fun v => match v with
    | .str s => .ok (.str s)
    | _ => .error ()
  convertFrom := fun v => v
  toText := fun v => match v with
    | .str s => s
    | _ => ""
  fromText := fun t => .ok (.str t)

/-- The `Bool` setting class: `convertTo` accepts values of type `bool` or
`int` and stores `bool(val)`; `toText` renders the truthiness of the stored
value; `fromText` strips, lowercases and matches the accepted tokens. -/
def BoolP (M : FloatModel) : VariantPolicy M.F where
  convertTo := fun v => match v with
    | .bool b => .ok (.bool b)
    | .int n => .ok (.bool (n != 0))
    | _ => .error ()
  convertFrom := fun v => v
  toText := fun v => if pyTruthy M v then "True" else "False"
  fromText := fun t =>
    let l := pyLower (pyStrip t)
    if ["true", "1", "t", "y", "yes"].contains l then .ok (.bool true)
    else if ["false", "0", "f", "n", "no"].contains l then .ok (.bool false)
    else .error ()

/-- The `Int` setting class: accepts exactly values of type `int` (Python
`type(val) == int` is false for `bool`), decimal text form. -/
def IntP (M : FloatModel) : VariantPolicy M.F where
  convertTo := fun v => match v with
    | .int n => .ok (.int n)
    | _ => .error ()
  convertFrom := fun v => v
  toText := fun v => pyStr M v
  fromText := fun t => match pyIntParse t with
    | some n => .ok (.int n)
    | Option.none => .error ()

/-- The `Float` setting class: accepts values of type `float` or `int`,
stores `float(val)`, decimal text form via `str` and `float`. -/
def FloatP (M : FloatModel) : VariantPolicy M.F where
  convertTo := fun v => match v with
    | .float x => .ok (.float x)
    | .int n => .ok (.float (M.ofInt n))
    | _ => .error ()
  convertFrom := fun v => v
  toText := fun v => pyStr M v
  fromText := fun t => match M.parse t with
    | some x => .ok (.float x)
    | Option.none => .error ()

/-- The `FloatOrAuto` setting class: numbers are stored as floats, any
spelling of "auto" (after strip and lower) is stored as the sentinel
`None`; `convertFrom` and `toText` surface the sentinel as `"Auto"`;
`fromText` returns the text `"Auto"` for auto spellings, else parses a
float. -/
def FloatOrAutoP (M : FloatModel) : VariantPolicy M.F where
  convertTo := fun v => match v with
    | .int n => .ok (.float (M.ofInt n))
    | .float x => .ok (.float x)
    | .str s =>
      if pyLower (pyStrip s) == "auto" then .ok .none else .error ()
    | _ => .error ()
  convertFrom := fun v => if pyEq M v .none then .str "Auto" else v
  toText := fun v => if pyEq M v .none then "Auto" else pyStr M v
  fromText := fun t =>
    if pyLower (pyStrip t) == "auto" then .ok (.str "Auto")
    else match M.parse t with
      | some x => .ok (.float x)
      | Option.none => .error ()

/-- The `IntOrAuto` setting class: same pattern as `FloatOrAuto` with
integer values. -/
def IntOrAutoP (M : FloatModel) : VariantPolicy M.F where
  convertTo := fun v => match v with
    | .int n => .ok (.int n)
    | .str s =>
      if pyLower (pyStrip s) == "auto" then .ok .none else .error ()
    | _ => .error ()
  convertFrom := fun v => if pyEq M v .none then .str "Auto" else v
  toText := fun v => if pyEq M v .none then "Auto" else pyStr M v
  fromText := fun t =>
    if pyLower (pyStrip t) == "auto" then .ok (.str "Auto")
    else match pyIntParse t with
      | some n => .ok (.int n)
      | Option.none => .error ()

/-- The `Distance` setting class.  Modelled from the spec: the validity
check `utils.isDist` lives in the `utils` module, which is not part of this
repository snapshot; the spec describes it as an external distance-syntax
predicate `isValidDistance(text) -> bool`, so the policy is parametric in a
predicate `isDist` on text. -/
def DistanceP (M : FloatModel) (isDist : String → Bool) :
    VariantPolicy M.F where
  convertTo := fun v => match v with
    | .str s => if isDist s then .ok (.str s) else .error ()
    | _ => .error ()
  convertFrom := fun v => v
  toText := fun v => match v with
    | .str s => s
    | _ => ""
  fromText := fun t => if isDist t then .ok (.str t) else .error ()

/-- The `Choice` setting class: `convertTo` and `fromText` require
membership (Python `in`, i.e. `==` against each element) in `vallist`. -/
def ChoiceP (M : FloatModel) (vallist : List (PyVal M.F)) :
    VariantPolicy M.F where
  convertTo := fun v => if pyMem M v vallist then .ok v else .error ()
  convertFrom := fun v => v
  toText := fun v => match v with
    | .str s => s
    | _ => ""
  fromText := fun t =>
    if pyMem M (.str t) vallist then .ok (.str t) else .error ()

/-- The `ChoiceOrMore` setting class: `convertTo` and `fromText` accept
everything unchanged; `vallist` is advisory and plays no part. -/
def ChoiceOrMoreP (M : FloatModel) (vallist : List (PyVal M.F)) :
    VariantPolicy M.F where
  convertTo := fun v => .ok v
  convertFrom := fun v => v
  toText := fun v => match v with
    | .str s => s
    | _ => ""
  fromText := fun t => .ok (.str t)

/-- The text round trip of one stored value: `fromText` applied to the
setting's text form returns the stored value itself. -/
def roundTrips {F : Type} (P : VariantPolicy F) (v : PyVal F) : Prop :=
  P.fromText (P.toText v) = .ok v

/-- A concrete `FloatModel` used to evaluate witnesses: float values
restricted to the integer-valued floats, carried by `Int`.  Its printing
and parsing are exactly the integer ones, for which the `GoodFloat`
properties are proved below. -/
def intModel : FloatModel where
  F := Int
  beq := fun a b => a == b
  ofInt := fun n => n
  toStr := pyStrOfInt
  parse := pyIntParse
  eqInt := fun a b => a == b

/-! Helper lemmas about the character-level functions. -/

theorem digitVal_digitCh {d : Nat} (h : d < 10) : digitVal (digitCh d) = d := by
  interval_cases d <;> decide

theorem digitCh_isDigit {d : Nat} (h : d < 10) : isDigitCh (digitCh d) = true := by
  interval_cases d <;> decide

theorem space_not_digit {c : Char} (h : pySpaceChar c = true) :
    isDigitCh c = false := by
  simp only [pySpaceChar, Bool.or_eq_true, decide_eq_true_eq] at h
  rcases h with ((((h | h) | h) | h) | h) | h <;> subst h <;> decide

theorem space_lower_fix {c : Char} (h : pySpaceChar c = true) :
    pyLowerChar c = c := by
  simp only [pySpaceChar, Bool.or_eq_true, decide_eq_true_eq] at h
  rcases h with ((((h | h) | h) | h) | h) | h <;> subst h <;> decide

theorem digit_lower_fix {c : Char} (h : isDigitCh c = true) :
    pyLowerChar c = c := by
  simp only [isDigitCh, Bool.and_eq_true, decide_eq_true_eq] at h
  unfold pyLowerChar
  rw [if_neg]
  rintro ⟨hA, _⟩
  exact absurd (le_trans hA h.2) (by decide)

theorem dropWhile_all_false {p : Char → Bool} {l : List Char}
    (h : ∀ c ∈ l, p c = false) : l.dropWhile p = l := by
  cases l with
  | nil => rfl
  | cons c tl =>
    rw [List.dropWhile_cons, h c (List.mem_cons_self c tl)]
    simp

theorem pyStripChars_no_space {l : List Char}
    (h : ∀ c ∈ l, pySpaceChar c = false) : pyStripChars l = l := by
  unfold pyStripChars
  rw [dropWhile_all_false h,
    dropWhile_all_false (fun c hc => h c (List.mem_reverse.mp hc)),
    List.reverse_reverse]

theorem map_fix {f : Char → Char} :
    ∀ (l : List Char), (∀ c ∈ l, f c = c) → l.map f = l
  | [], _ => rfl
  | c :: tl, h => by
    rw [List.map_cons, h c (List.mem_cons_self c tl),
      map_fix tl (fun x hx => h x (List.mem_cons_of_mem _ hx))]

/-! Helper lemmas: the decimal printer and parser are inverse. -/

theorem foldl_digits (ds : List Nat) (h : ∀ d ∈ ds, d < 10) (a : Nat) :
    ((ds.map digitCh).reverse).foldl (fun a c => 10 * a + digitVal c) a
      = a * 10 ^ ds.length + Nat.ofDigits 10 ds := by
  induction ds generalizing a with
  | nil => simp [Nat.ofDigits]
  | cons d tl ih =>
    have hd : d < 10 := h d (List.mem_cons_self d tl)
    have htl : ∀ x ∈ tl, x < 10 := fun x hx => h x (List.mem_cons_of_mem _ hx)
    simp only [List.map_cons, List.reverse_cons, List.foldl_append,
      ih htl, List.foldl_cons, List.foldl_nil]
    rw [digitVal_digitCh hd, Nat.ofDigits_cons, List.length_cons]
    ring

theorem pyStrOfNat_digits (n : Nat) :
    ∀ c ∈ (pyStrOfNat n).data, isDigitCh c = true := by
  unfold pyStrOfNat
  by_cases h : n = 0
  · rw [if_pos h]; decide
  · rw [if_neg h]
    intro c hc
    have hc2 : c ∈ (Nat.digits 10 n).map digitCh := List.mem_reverse.mp hc
    obtain ⟨d, hd, rfl⟩ := List.mem_map.mp hc2
    exact digitCh_isDigit (Nat.digits_lt_base (by norm_num) hd)

theorem pyStrOfNat_ne_nil (n : Nat) : (pyStrOfNat n).data ≠ [] := by
  unfold pyStrOfNat
  by_cases h : n = 0
  · rw [if_pos h]; decide
  · rw [if_neg h]
    simp only [List.reverse_eq_nil_iff, List.map_eq_nil_iff, ne_eq]
    exact Nat.digits_ne_nil_iff_ne_zero.mpr h

theorem parseNat_print (n : Nat) : parseNatChars (pyStrOfNat n).data = some n := by
  by_cases h0 : n = 0
  · subst h0; decide
  · have hdig := pyStrOfNat_digits n
    unfold parseNatChars
    rw [if_neg (by simpa [List.isEmpty_iff] using pyStrOfNat_ne_nil n),
      if_pos (List.all_eq_true.mpr (fun c hc => hdig c hc))]
    unfold pyStrOfNat
    rw [if_neg h0]
    show some ((((Nat.digits 10 n).map digitCh).reverse).foldl
      (fun a c => 10 * a + digitVal c) 0) = some n
    rw [foldl_digits (Nat.digits 10 n)
      (fun d hd => Nat.digits_lt_base (by norm_num) hd) 0]
    simp [Nat.ofDigits_digits]

theorem pyStrOfInt_chars (n : Int) :
    ∀ c ∈ (pyStrOfInt n).data, isDigitCh c = true ∨ c = '-' := by
  unfold pyStrOfInt
  by_cases h : n < 0
  · rw [if_pos h]
    intro c hc
    rw [String.data_append] at hc
    rcases List.mem_append.mp hc with h1 | h2
    · right; simpa using h1
    · left; exact pyStrOfNat_digits _ c h2
  · rw [if_neg h]
    intro c hc
    left; exact pyStrOfNat_digits _ c hc

theorem pyStrOfInt_no_space (n : Int) :
    ∀ c ∈ (pyStrOfInt n).data, pySpaceChar c = false := by
  intro c hc
  rcases pyStrOfInt_chars n c hc with hd | hm
  · cases hsp : pySpaceChar c with
    | false => rfl
    | true => rw [space_not_digit hsp] at hd; exact absurd hd (by simp)
  · subst hm; decide

theorem pyStrip_pyStrOfInt (n : Int) : pyStrip (pyStrOfInt n) = pyStrOfInt n := by
  unfold pyStrip
  rw [pyStripChars_no_space (pyStrOfInt_no_space n)]

theorem pyLower_pyStrOfInt (n : Int) : pyLower (pyStrOfInt n) = pyStrOfInt n := by
  unfold pyLower
  rw [map_fix]
  intro c hc
  rcases pyStrOfInt_chars n c hc with hd | hm
  · exact digit_lower_fix hd
  · subst hm; decide

theorem pyIntParse_pyStrOfInt (n : Int) : pyIntParse (pyStrOfInt n) = some n := by
  unfold pyIntParse
  rw [pyStripChars_no_space (pyStrOfInt_no_space n)]
  by_cases hneg : n < 0
  · have hdata : (pyStrOfInt n).data = '-' :: (pyStrOfNat n.natAbs).data := by
      unfold pyStrOfInt
      rw [if_pos hneg, String.data_append]
      rfl
    rw [hdata]
    simp [pyIntParseChars, parseNat_print]
    rw [abs_of_nonpos hneg.le, neg_neg]
  · have hdata : (pyStrOfInt n).data = (pyStrOfNat n.natAbs).data := by
      unfold pyStrOfInt
      rw [if_neg hneg]
    rw [hdata]
    cases hl : (pyStrOfNat n.natAbs).data with
    | nil => exact absurd hl (pyStrOfNat_ne_nil _)
    | cons c rest =>
      have hc : isDigitCh c = true :=
        pyStrOfNat_digits _ c (by rw [hl]; exact List.mem_cons_self _ _)
      have hc1 : ¬(c = '-') := fun h => by subst h; exact absurd hc (by decide)
      have hc2 : ¬(c = '+') := fun h => by subst h; exact absurd hc (by decide)
      simp only [pyIntParseChars, if_neg hc1, if_neg hc2]
      rw [← hl, parseNat_print]
      simp
      omega

theorem pyStrOfInt_not_auto (n : Int) :
    pyLower (pyStrip (pyStrOfInt n)) ≠ "auto" := by
  rw [pyStrip_pyStrOfInt, pyLower_pyStrOfInt]
  intro h
  have hmem : 'a' ∈ (pyStrOfInt n).data := by
    rw [h]; decide
  rcases pyStrOfInt_chars n 'a' hmem with hd | hm
  · exact absurd hd (by decide)
  · exact absurd hm (by decide)

/-- The integer-valued float model satisfies every CPython float fact the
development assumes. -/
theorem intModel_good : GoodFloat intModel :=
  ⟨fun x => by simp [intModel],
    fun x => pyIntParse_pyStrOfInt x,
    fun x => pyStrOfInt_not_auto x,
    fun n => by simp [intModel]⟩

/-! Helper lemmas about Python equality, membership and strings. -/

theorem pyEq_refl (M : FloatModel) (hM : GoodFloat M) (v : PyVal M.F) :
    pyEq M v v = true := by
  cases v with
  | none => rfl
  | bool b => simp [pyEq]
  | int n => simp [pyEq]
  | float x => exact hM.1 x
  | str s => simp [pyEq]

theorem pyEq_str (M : FloatModel) (a b : String) :
    pyEq M (.str a) (.str b) = (a == b) := rfl

theorem pyMem_map_str (M : FloatModel) (s : String) (vl : List String) :
    pyMem M (.str s) (vl.map PyVal.str) = true ↔ s ∈ vl := by
  induction vl with
  | nil => simp [pyMem]
  | cons a tl ih =>
    rw [List.mem_cons]
    simp only [List.map_cons, pyMem, List.any_cons, Bool.or_eq_true, pyEq_str] at ih ⊢
    rw [ih, beq_iff_eq]
    constructor
    · rintro (h | h)
      · exact Or.inl h.symm
      · exact Or.inr h
    · rintro (h | h)
      · exact Or.inl h.symm
      · exact Or.inr h

theorem auto_no_space {s : String} (h : pyLower s = "auto") :
    ∀ c ∈ s.data, pySpaceChar c = false := by
  intro c hc
  have hd : s.data.map pyLowerChar = ['a', 'u', 't', 'o'] :=
    congrArg String.data h
  have hmem : pyLowerChar c ∈ (['a', 'u', 't', 'o'] : List Char) := by
    rw [← hd]; exact List.mem_map_of_mem pyLowerChar hc
  cases hsp : pySpaceChar c with
  | false => rfl
  | true =>
    rw [space_lower_fix hsp] at hmem
    simp only [List.mem_cons, List.not_mem_nil, or_false] at hmem
    rcases hmem with h1 | h1 | h1 | h1 <;> subst h1 <;> exact absurd hsp (by decide)

theorem auto_strip {s : String} (h : pyLower s = "auto") : pyStrip s = s := by
  unfold pyStrip
  rw [pyStripChars_no_space (auto_no_space h)]

/-! Helper lemmas about the shared Setting operations. -/

theorem setOp_error {F : Type} (P : VariantPolicy F) (st : SettingState F)
    (v : PyVal F) (h : P.convertTo v = .error ()) :
    setOp P st v = (st, .error ()) := by
  unfold setOp
  rw [h]

theorem setOp_ok {F : Type} (P : VariantPolicy F) (st : SettingState F)
    (v w : PyVal F) (h : P.convertTo v = .ok w) :
    setOp P st v
      = ({ st with val := w }, .ok (st.onmodified.map (fun i => (i, true)))) := by
  unfold setOp
  rw [h]

theorem newDefaultOp_error {F : Type} (P : VariantPolicy F)
    (st : SettingState F) (x : PyVal F) (h : P.convertTo x = .error ()) :
    newDefaultOp P st x = ({ st with default := x }, .error ()) := by
  unfold newDefaultOp
  rw [h]

theorem newDefaultOp_ok {F : Type} (P : VariantPolicy F)
    (st : SettingState F) (x w : PyVal F) (h : P.convertTo x = .ok w) :
    newDefaultOp P st x = ({ st with default := x, val := w },
      .ok (st.onmodified.map (fun i => (i, true)))) := by
  unfold newDefaultOp
  rw [h]

/-! The claims. -/

/-- C1: for every variant, calling `set` with a value rejected by that
variant's `convertTo` policy raises the invalid-value error, leaves the
state — hence `storedValue` and `get()` — unchanged, and invokes no
registered observer (the event trace is absent). -/
theorem claim_C1_set_invalid_atomic {F : Type} (P : VariantPolicy F)
    (st : SettingState F) (v : PyVal F) (h : P.convertTo v = .error ()) :
    setOp P st v = (st, .error ()) ∧ (setOp P st v).1.val = st.val ∧
      getOp P (setOp P st v).1 = getOp P st := by
  have h1 := setOp_error P st v h
  exact ⟨h1, by rw [h1], by rw [h1]⟩

/-- Witness for C1: the Bool variant rejects the string "x"; `set` on a
concrete state with one observer raises and changes nothing. -/
theorem claim_C1_witness :
    setOp (BoolP intModel) ⟨.bool true, .bool true, [7]⟩ (.str "x")
        = (⟨.bool true, .bool true, [7]⟩, .error ()) ∧
      (setOp (BoolP intModel) ⟨.bool true, .bool true, [7]⟩ (.str "x")).1.val
        = (⟨.bool true, .bool true, [7]⟩ : SettingState intModel.F).val ∧
      getOp (BoolP intModel)
          (setOp (BoolP intModel) ⟨.bool true, .bool true, [7]⟩ (.str "x")).1
        = getOp (BoolP intModel) ⟨.bool true, .bool true, [7]⟩ :=
  claim_C1_set_invalid_atomic (BoolP intModel)
    ⟨.bool true, .bool true, [7]⟩ (.str "x") rfl

/-- C2: for every variant, a successful `set v` replaces `storedValue` with
the result of `convertTo v` and then emits exactly one `True` event per
registered observer, in registration order (observers are registered by
appending); this holds whether or not the new value equals the old one. -/
theorem claim_C2_set_success_notifies {F : Type} (P : VariantPolicy F)
    (st : SettingState F) (v w : PyVal F) (h : P.convertTo v = .ok w) :
    setOp P st v = ({ st with val := w },
        .ok (st.onmodified.map (fun i => (i, true)))) ∧
      (∀ j, (setOnModifiedOp st j).onmodified = st.onmodified ++ [j]) :=
  ⟨setOp_ok P st v w h, fun j => rfl⟩

/-- Witness for C2: re-assigning the Bool variant its current value still
notifies both registered observers, once each, in order, with `true`. -/
theorem claim_C2_witness :
    setOp (BoolP intModel) ⟨.bool true, .bool true, [0, 1]⟩ (.bool true)
        = (⟨.bool true, .bool true, [0, 1]⟩, .ok [(0, true), (1, true)]) :=
  (claim_C2_set_success_notifies (BoolP intModel)
    ⟨.bool true, .bool true, [0, 1]⟩ (.bool true) (.bool true) rfl).1

/-- C6 counterexample: the Bool variant's `set` accepts the integer 5
(which is neither 0 nor 1) and stores `True` instead of raising, refuting
the claim that only booleans and the integers 0 and 1 are accepted. -/
theorem claim_C6_counterexample :
    setOp (BoolP intModel) ⟨.bool false, .bool false, []⟩ (.int 5)
        = (⟨.bool false, .bool true, []⟩, .ok []) ∧
      (5 : Int) ≠ 0 ∧ (5 : Int) ≠ 1 :=
  ⟨rfl, by decide, by decide⟩

/-- C6 amended: the Bool variant's `set` accepts every boolean (stored
unchanged) and every integer (stored as its truthiness `bool(v)`, i.e.
`v ≠ 0`), and raises the invalid-value error for every float, string and
`None` input. -/
theorem claim_C6_bool_set_amended (M : FloatModel) (st : SettingState M.F) :
    (∀ b, setOp (BoolP M) st (.bool b) = ({ st with val := .bool b },
        .ok (st.onmodified.map (fun i => (i, true))))) ∧
      (∀ n : Int, setOp (BoolP M) st (.int n)
        = ({ st with val := .bool (n != 0) },
          .ok (st.onmodified.map (fun i => (i, true))))) ∧
      (∀ x, setOp (BoolP M) st (.float x) = (st, .error ())) ∧
      (∀ s, setOp (BoolP M) st (.str s) = (st, .error ())) ∧
      setOp (BoolP M) st .none = (st, .error ()) :=
  ⟨fun b => setOp_ok _ st _ _ rfl, fun n => setOp_ok _ st _ _ rfl,
    fun x => setOp_error _ st _ rfl, fun s => setOp_error _ st _ rfl,
    setOp_error _ st _ rfl⟩

/-- C8: for the Choice variant over a list of strings, `set` and `fromText`
succeed exactly on members of `vallist` (exact string match); on a
non-member both raise the invalid-value error and `set` leaves the state
unchanged. -/
theorem claim_C8_choice_membership (M : FloatModel) (vl : List String)
    (st : SettingState M.F) (s : String) :
    (s ∈ vl →
      setOp (ChoiceP M (vl.map PyVal.str)) st (.str s)
          = ({ st with val := .str s },
            .ok (st.onmodified.map (fun i => (i, true)))) ∧
        (ChoiceP M (vl.map PyVal.str)).fromText s = .ok (.str s)) ∧
    (s ∉ vl →
      setOp (ChoiceP M (vl.map PyVal.str)) st (.str s) = (st, .error ()) ∧
        (ChoiceP M (vl.map PyVal.str)).fromText s = .error ()) := by
  constructor
  · intro hs
    have hm : pyMem M (.str s) (vl.map PyVal.str) = true :=
      (pyMem_map_str M s vl).mpr hs
    exact ⟨setOp_ok _ st _ _ (by simp [ChoiceP, hm]), by simp [ChoiceP, hm]⟩
  · intro hs
    have hm : pyMem M (.str s) (vl.map PyVal.str) = false := by
      cases h : pyMem M (.str s) (vl.map PyVal.str) with
      | false => rfl
      | true => exact absurd ((pyMem_map_str M s vl).mp h) hs
    exact ⟨setOp_error _ st _ (by simp [ChoiceP, hm]), by simp [ChoiceP, hm]⟩

/-- Witness for C8: with vallist ["a", "b"], `fromText "b"` succeeds and
`set "c"` raises leaving the state unchanged. -/
theorem claim_C8_witness :
    (ChoiceP intModel ((["a", "b"] : List String).map PyVal.str)).fromText "b"
        = .ok (.str "b") ∧
      setOp (ChoiceP intModel ((["a", "b"] : List String).map PyVal.str))
          ⟨.str "a", .str "a", []⟩ (.str "c")
        = (⟨.str "a", .str "a", []⟩, .error ()) :=
  ⟨((claim_C8_choice_membership intModel ["a", "b"]
      ⟨.str "a", .str "a", []⟩ "b").1 (by decide)).2,
    ((claim_C8_choice_membership intModel ["a", "b"]
      ⟨.str "a", .str "a", []⟩ "c").2 (by decide)).1⟩

/-- C9: the ChoiceOrMore variant has no rejection path: for every text
input (whatever the advisory `vallist`), `set` succeeds storing the text,
and `fromText` returns the text unchanged without raising. -/
theorem claim_C9_choiceOrMore_accepts_all (M : FloatModel)
    (vl : List (PyVal M.F)) (st : SettingState M.F) (t : String) :
    setOp (ChoiceOrMoreP M vl) st (.str t)
        = ({ st with val := .str t },
          .ok (st.onmodified.map (fun i => (i, true)))) ∧
      (ChoiceOrMoreP M vl).fromText t = .ok (.str t) :=
  ⟨setOp_ok _ st _ _ rfl, rfl⟩

/-- C10: for every variant, `newDefault x` with a value rejected by
`convertTo` first replaces the default and only then raises, so afterwards
the stored default is `x` while `storedValue` and `get()` keep their
previous values — unlike `set`, which leaves everything unchanged. -/
theorem claim_C10_newDefault_not_atomic {F : Type} (P : VariantPolicy F)
    (st : SettingState F) (x : PyVal F) (h : P.convertTo x = .error ()) :
    newDefaultOp P st x = ({ st with default := x }, .error ()) ∧
      (newDefaultOp P st x).1.default = x ∧
      (newDefaultOp P st x).1.val = st.val ∧
      getOp P (newDefaultOp P st x).1 = getOp P st ∧
      setOp P st x = (st, .error ()) := by
  have h1 := newDefaultOp_error P st x h
  exact ⟨h1, by rw [h1], by rw [h1], by rw [h1]; rfl, setOp_error P st x h⟩

/-- Witness for C10: `newDefault` of the string "q" on an Int setting
raises but replaces the default, while `storedValue` keeps 3. -/
theorem claim_C10_witness :
    newDefaultOp (IntP intModel) ⟨.int 3, .int 3, [2]⟩ (.str "q")
        = (⟨.str "q", .int 3, [2]⟩, .error ()) ∧
      (newDefaultOp (IntP intModel) ⟨.int 3, .int 3, [2]⟩ (.str "q")).1.default
        = .str "q" ∧
      (newDefaultOp (IntP intModel) ⟨.int 3, .int 3, [2]⟩ (.str "q")).1.val
        = (⟨.int 3, .int 3, [2]⟩ : SettingState intModel.F).val ∧
      getOp (IntP intModel)
          (newDefaultOp (IntP intModel) ⟨.int 3, .int 3, [2]⟩ (.str "q")).1
        = getOp (IntP intModel) ⟨.int 3, .int 3, [2]⟩ ∧
      setOp (IntP intModel) ⟨.int 3, .int 3, [2]⟩ (.str "q")
        = (⟨.int 3, .int 3, [2]⟩, .error ()) :=
  claim_C10_newDefault_not_atomic (IntP intModel)
    ⟨.int 3, .int 3, [2]⟩ (.str "q") rfl

/-- C3 counterexample: the IntOrAuto sentinel state refutes exact
inverseness over the storage representation.  The text "auto" is accepted
into storage as the sentinel `None`, but `fromText (toText ())` on that
stored value returns the text "Auto", not the sentinel. -/
theorem claim_C3_counterexample :
    (IntOrAutoP intModel).convertTo (.str "auto") = .ok .none ∧
      (IntOrAutoP intModel).fromText ((IntOrAutoP intModel).toText .none)
        = .ok (.str "Auto") ∧
      (PyVal.str "Auto" : PyVal intModel.F) ≠ .none :=
  ⟨rfl, rfl, fun h => PyVal.noConfusion h⟩

/-- C3 amended: for every variant and every value accepted into storage,
`fromText (toText ())` returns the stored value itself — except in the
FloatOrAuto/IntOrAuto sentinel state, where it returns the text "Auto",
which `convertTo` maps back to the sentinel (so the round trip is exact
only up to `convertTo`).  The two shape conjuncts show floats/ints plus
the sentinel exhaust those variants' storage values. -/
theorem claim_C3_roundtrip_amended (M : FloatModel) (hM : GoodFloat M)
    (isDist : String → Bool) (vl : List String) :
    (∀ s, roundTrips (StrP M) (.str s)) ∧
    (∀ b, roundTrips (BoolP M) (.bool b)) ∧
    (∀ n : Int, roundTrips (IntP M) (.int n)) ∧
    (∀ x, roundTrips (FloatP M) (.float x)) ∧
    (∀ v w, (FloatOrAutoP M).convertTo v = .ok w →
      (∃ x, w = .float x) ∨ w = .none) ∧
    (∀ x, roundTrips (FloatOrAutoP M) (.float x)) ∧
    ((FloatOrAutoP M).fromText ((FloatOrAutoP M).toText .none)
        = .ok (.str "Auto") ∧
      (FloatOrAutoP M).convertTo (.str "Auto") = .ok .none) ∧
    (∀ v w, (IntOrAutoP M).convertTo v = .ok w →
      (∃ n, w = .int n) ∨ w = .none) ∧
    (∀ n : Int, roundTrips (IntOrAutoP M) (.int n)) ∧
    ((IntOrAutoP M).fromText ((IntOrAutoP M).toText .none)
        = .ok (.str "Auto") ∧
      (IntOrAutoP M).convertTo (.str "Auto") = .ok .none) ∧
    (∀ s, isDist s = true → roundTrips (DistanceP M isDist) (.str s)) ∧
    (∀ s, s ∈ vl → roundTrips (ChoiceP M (vl.map PyVal.str)) (.str s)) ∧
    (∀ s, roundTrips (ChoiceOrMoreP M (vl.map PyVal.str)) (.str s)) := by
  refine ⟨fun s => rfl, fun b => by cases b <;> rfl, ?_, ?_, ?_, ?_,
    ⟨rfl, rfl⟩, ?_, ?_, ⟨rfl, rfl⟩, ?_, ?_, fun s => rfl⟩
  · intro n
    simp [roundTrips, IntP, pyStr, pyIntParse_pyStrOfInt]
  · intro x
    simp [roundTrips, FloatP, pyStr, hM.2.1 x]
  · intro v w h
    cases v with
    | int n => simp [FloatOrAutoP] at h; exact Or.inl ⟨M.ofInt n, h.symm⟩
    | float x => simp [FloatOrAutoP] at h; exact Or.inl ⟨x, h.symm⟩
    | str s =>
      by_cases hc : pyLower (pyStrip s) = "auto"
      · simp [FloatOrAutoP, hc] at h; exact Or.inr h.symm
      · simp [FloatOrAutoP, hc] at h
    | none => simp [FloatOrAutoP] at h
    | bool b => simp [FloatOrAutoP] at h
  · intro x
    simp [roundTrips, FloatOrAutoP, pyEq, pyStr, hM.2.2.1 x, hM.2.1 x]
  · intro v w h
    cases v with
    | int n => simp [IntOrAutoP] at h; exact Or.inl ⟨n, h.symm⟩
    | str s =>
      by_cases hc : pyLower (pyStrip s) = "auto"
      · simp [IntOrAutoP, hc] at h; exact Or.inr h.symm
      · simp [IntOrAutoP, hc] at h
    | none => simp [IntOrAutoP] at h
    | bool b => simp [IntOrAutoP] at h
    | float x => simp [IntOrAutoP] at h
  · intro n
    simp [roundTrips, IntOrAutoP, pyEq, pyStr, pyStrOfInt_not_auto n,
      pyIntParse_pyStrOfInt]
  · intro s h
    simp [roundTrips, DistanceP, h]
  · intro s hs
    have hm : pyMem M (.str s) (vl.map PyVal.str) = true :=
      (pyMem_map_str M s vl).mpr hs
    simp [roundTrips, ChoiceP, hm]

/-- Witness for C3 amended: concrete round trips through the integer float
model — a negative Int value, a Distance value, a Choice member, and the
IntOrAuto sentinel's trip to the text "Auto". -/
theorem claim_C3_witness :
    roundTrips (IntP intModel) (.int (-12)) ∧
      roundTrips (DistanceP intModel (fun s => s == "1pt")) (.str "1pt") ∧
      roundTrips (ChoiceP intModel
        ((["a", "b"] : List String).map PyVal.str)) (.str "b") ∧
      (IntOrAutoP intModel).fromText ((IntOrAutoP intModel).toText .none)
        = .ok (.str "Auto") := by
  have h := claim_C3_roundtrip_amended intModel intModel_good
    (fun s => s == "1pt") ["a", "b"]
  exact ⟨h.2.2.1 (-12),
    h.2.2.2.2.2.2.2.2.2.2.1 "1pt" rfl,
    h.2.2.2.2.2.2.2.2.2.2.2.1 "b" (by decide),
    h.2.2.2.2.2.2.2.2.2.1.1⟩

/-- C5: for the FloatOrAuto variant, `set` of any case-variant of the text
"auto" stores the sentinel, after which `get()` returns the string "Auto"
and `toText()` returns "Auto"; `set` of an integer stores `float(n)` and
`set` of a float stores it unchanged, and `get()` returns that float. -/
theorem claim_C5_floatOrAuto (M : FloatModel) (st : SettingState M.F) :
    (∀ s, pyLower s = "auto" →
      setOp (FloatOrAutoP M) st (.str s)
          = ({ st with val := .none },
            .ok (st.onmodified.map (fun i => (i, true)))) ∧
        getOp (FloatOrAutoP M) { st with val := .none } = .str "Auto" ∧
        (FloatOrAutoP M).toText .none = "Auto") ∧
    (∀ n : Int, setOp (FloatOrAutoP M) st (.int n)
          = ({ st with val := .float (M.ofInt n) },
            .ok (st.onmodified.map (fun i => (i, true)))) ∧
        getOp (FloatOrAutoP M) { st with val := .float (M.ofInt n) }
          = .float (M.ofInt n)) ∧
    (∀ x, setOp (FloatOrAutoP M) st (.float x)
          = ({ st with val := .float x },
            .ok (st.onmodified.map (fun i => (i, true)))) ∧
        getOp (FloatOrAutoP M) { st with val := .float x } = .float x) := by
  refine ⟨fun s hs => ⟨?_, rfl, rfl⟩,
    fun n => ⟨setOp_ok _ st _ _ rfl, rfl⟩,
    fun x => ⟨setOp_ok _ st _ _ rfl, rfl⟩⟩
  apply setOp_ok
  simp [FloatOrAutoP, auto_strip hs, hs]

/-- Witness for C5: setting the uppercase spelling "AUTO" stores the
sentinel and `get()` reads back the string "Auto". -/
theorem claim_C5_witness :
    setOp (FloatOrAutoP intModel) ⟨.int 0, .int 0, []⟩ (.str "AUTO")
        = (⟨.int 0, .none, []⟩, .ok []) ∧
      getOp (FloatOrAutoP intModel) ⟨.int 0, .none, []⟩ = .str "Auto" :=
  ⟨((claim_C5_floatOrAuto intModel ⟨.int 0, .int 0, []⟩).1 "AUTO"
      (by decide)).1,
    ((claim_C5_floatOrAuto intModel ⟨.int 0, .int 0, []⟩).1 "AUTO"
      (by decide)).2.1⟩

/-- C7 counterexample: " true " (with surrounding spaces) is not a
case-insensitive spelling of any accepted token, so by the claim
`fromText` should raise — but the code strips whitespace first and
returns `True`. -/
theorem claim_C7_counterexample :
    (BoolP intModel).fromText " true " = .ok (.bool true) ∧
      pyLower " true " ∉ (["true", "1", "t", "y", "yes",
        "false", "0", "f", "n", "no"] : List String) :=
  ⟨rfl, by decide⟩

/-- C7 amended: after discarding surrounding whitespace, `fromText`
returns True for every case-insensitive spelling of true/1/t/y/yes, False
for every case-insensitive spelling of false/0/f/n/no, and raises the
invalid-value error for any other text. -/
theorem claim_C7_bool_fromText_amended (M : FloatModel) :
    (∀ t, pyLower (pyStrip t) ∈ (["true", "1", "t", "y", "yes"] : List String) →
      (BoolP M).fromText t = .ok (.bool true)) ∧
    (∀ t, pyLower (pyStrip t) ∈ (["false", "0", "f", "n", "no"] : List String) →
      (BoolP M).fromText t = .ok (.bool false)) ∧
    (∀ t, pyLower (pyStrip t) ∉ (["true", "1", "t", "y", "yes"] : List String) →
      pyLower (pyStrip t) ∉ (["false", "0", "f", "n", "no"] : List String) →
      (BoolP M).fromText t = .error ()) ∧
    (BoolP M).fromText "YES" = .ok (.bool true) ∧
    (BoolP M).fromText "0" = .ok (.bool false) ∧
    (BoolP M).fromText "maybe" = .error () := by
  refine ⟨?_, ?_, ?_, rfl, rfl, rfl⟩
  · intro t h
    simp only [List.mem_cons, List.not_mem_nil, or_false] at h
    rcases h with h | h | h | h | h <;> simp [BoolP, h]
  · intro t h
    simp only [List.mem_cons, List.not_mem_nil, or_false] at h
    rcases h with h | h | h | h | h <;> simp [BoolP, h]
  · intro t h1 h2
    simp only [List.mem_cons, List.not_mem_nil, or_false, not_or] at h1 h2
    obtain ⟨a1, a2, a3, a4, a5⟩ := h1
    obtain ⟨b1, b2, b3, b4, b5⟩ := h2
    simp [BoolP, a1, a2, a3, a4, a5, b1, b2, b3, b4, b5]

/-- Witness for C7 amended: a whitespace-padded mixed-case spelling parses
to False, and text outside both token lists raises. -/
theorem claim_C7_witness :
    (BoolP intModel).fromText " False " = .ok (.bool false) ∧
      (BoolP intModel).fromText "perhaps" = .error () := by
  have h := claim_C7_bool_fromText_amended intModel
  exact ⟨h.2.1 " False " (by decide),
    h.2.2.1 "perhaps" (by decide) (by decide)⟩

/-- For a policy whose `convertFrom` is the identity and whose `convertTo`
returns accepted values unchanged, `isDefault` holds in every assigned
state. -/
theorem isDefault_of_assigned_id (M : FloatModel) (hM : GoodFloat M)
    (P : VariantPolicy M.F) (hFrom : ∀ v, P.convertFrom v = v)
    (hTo : ∀ v w, P.convertTo v = .ok w → w = v)
    (st : SettingState M.F) (h : assigned P st) :
    isDefaultOp M P st = true := by
  have hv : st.val = st.default := hTo st.default st.val h
  unfold isDefaultOp getOp
  rw [hFrom, hv]
  exact pyEq_refl M hM st.default

/-- C4 counterexample: constructing IntOrAuto with the accepted initial
value "auto" stores the sentinel, `get()` reads back "Auto", and since
"Auto" differs from the remembered default "auto", `isDefault()` is false
immediately after construction. -/
theorem claim_C4_counterexample :
    initSetting (IntOrAutoP intModel) (.str "auto")
        = .ok ⟨.str "auto", .none, []⟩ ∧
      isDefaultOp intModel (IntOrAutoP intModel) ⟨.str "auto", .none, []⟩
        = false :=
  ⟨rfl, rfl⟩

/-- C4 amended: construction and a successful `newDefault` both leave the
setting in an assigned state (default stored, value `convertTo` of it), and
in an assigned state `isDefault()` is true for every variant and accepted
default — except that for Bool with an integer default it holds exactly
when the integer is 0 or 1, and for FloatOrAuto/IntOrAuto with a textual
auto-spelling as default it holds exactly when that text is "Auto" itself
(the spelling `get()` produces). -/
theorem claim_C4_isDefault_amended (M : FloatModel) (hM : GoodFloat M)
    (isDist : String → Bool) (vl : List (PyVal M.F)) :
    (∀ (F : Type) (P : VariantPolicy F) (x : PyVal F) (st : SettingState F),
      initSetting P x = .ok st → st.default = x ∧ assigned P st) ∧
    (∀ (F : Type) (P : VariantPolicy F) (st : SettingState F) (x w : PyVal F),
      P.convertTo x = .ok w →
        (newDefaultOp P st x).1.default = x ∧
          assigned P (newDefaultOp P st x).1) ∧
    (∀ st, assigned (StrP M) st → isDefaultOp M (StrP M) st = true) ∧
    (∀ st b, assigned (BoolP M) st → st.default = .bool b →
      isDefaultOp M (BoolP M) st = true) ∧
    (∀ st (n : Int), assigned (BoolP M) st → st.default = .int n →
      (isDefaultOp M (BoolP M) st = true ↔ n = 0 ∨ n = 1)) ∧
    (∀ st, assigned (IntP M) st → isDefaultOp M (IntP M) st = true) ∧
    (∀ st, assigned (FloatP M) st → isDefaultOp M (FloatP M) st = true) ∧
    (∀ st (n : Int), assigned (FloatOrAutoP M) st → st.default = .int n →
      isDefaultOp M (FloatOrAutoP M) st = true) ∧
    (∀ st x, assigned (FloatOrAutoP M) st → st.default = .float x →
      isDefaultOp M (FloatOrAutoP M) st = true) ∧
    (∀ st s, assigned (FloatOrAutoP M) st → st.default = .str s →
      (isDefaultOp M (FloatOrAutoP M) st = true ↔ s = "Auto")) ∧
    (∀ st (n : Int), assigned (IntOrAutoP M) st → st.default = .int n →
      isDefaultOp M (IntOrAutoP M) st = true) ∧
    (∀ st s, assigned (IntOrAutoP M) st → st.default = .str s →
      (isDefaultOp M (IntOrAutoP M) st = true ↔ s = "Auto")) ∧
    (∀ st, assigned (DistanceP M isDist) st →
      isDefaultOp M (DistanceP M isDist) st = true) ∧
    (∀ st, assigned (ChoiceP M vl) st → isDefaultOp M (ChoiceP M vl) st = true) ∧
    (∀ st, assigned (ChoiceOrMoreP M vl) st →
      isDefaultOp M (ChoiceOrMoreP M vl) st = true) := by
  refine ⟨?_, ?_, ?_, ?_, ?_, ?_, ?_, ?_, ?_, ?_, ?_, ?_, ?_, ?_, ?_⟩
  · intro F P x st h
    unfold initSetting at h
    cases hc : P.convertTo x with
    | error e => rw [hc] at h; simp at h
    | ok w =>
      rw [hc] at h
      simp only [Except.ok.injEq] at h
      subst h
      exact ⟨rfl, hc⟩
  · intro F P st x w h
    rw [newDefaultOp_ok P st x w h]
    exact ⟨rfl, h⟩
  · intro st h
    refine isDefault_of_assigned_id M hM _ (fun v => rfl) ?_ st h
    intro v w hw
    cases v with
    | str s => simp only [StrP, Except.ok.injEq] at hw; exact hw.symm
    | none => exact absurd hw (by simp [StrP])
    | bool b => exact absurd hw (by simp [StrP])
    | int n => exact absurd hw (by simp [StrP])
    | float x => exact absurd hw (by simp [StrP])
  · intro st b h hd
    unfold assigned at h
    rw [hd] at h
    simp only [BoolP, Except.ok.injEq] at h
    unfold isDefaultOp getOp
    rw [hd, ← h]
    simp [BoolP, pyEq]
  · intro st n h hd
    unfold assigned at h
    rw [hd] at h
    simp only [BoolP, Except.ok.injEq] at h
    unfold isDefaultOp getOp
    rw [hd, ← h]
    show ((if ((n != 0) : Bool) then (1 : Int) else 0) == n) = true ↔
      n = 0 ∨ n = 1
    by_cases h0 : n = 0
    · subst h0; decide
    · rw [bne_iff_ne.mpr h0]
      simp only [if_true, beq_iff_eq]
      constructor
      · intro h1; exact Or.inr h1.symm
      · rintro (h1 | h1)
        · exact absurd h1 h0
        · exact h1.symm
  · intro st h
    refine isDefault_of_assigned_id M hM _ (fun v => rfl) ?_ st h
    intro v w hw
    cases v with
    | int n => simp only [IntP, Except.ok.injEq] at hw; exact hw.symm
    | none => exact absurd hw (by simp [IntP])
    | bool b => exact absurd hw (by simp [IntP])
    | str s => exact absurd hw (by simp [IntP])
    | float x => exact absurd hw (by simp [IntP])
  · intro st h
    unfold assigned at h
    unfold isDefaultOp getOp
    cases hd : st.default with
    | int n =>
      rw [hd] at h
      simp only [FloatP, Except.ok.injEq] at h
      rw [← h]
      exact hM.2.2.2 n
    | float x =>
      rw [hd] at h
      simp only [FloatP, Except.ok.injEq] at h
      rw [← h]
      exact hM.1 x
    | none => rw [hd] at h; exact absurd h (by simp [FloatP])
    | bool b => rw [hd] at h; exact absurd h (by simp [FloatP])
    | str s => rw [hd] at h; exact absurd h (by simp [FloatP])
  · intro st n h hd
    unfold assigned at h
    rw [hd] at h
    simp only [FloatOrAutoP, Except.ok.injEq] at h
    unfold isDefaultOp getOp
    rw [hd, ← h]
    exact hM.2.2.2 n
  · intro st x h hd
    unfold assigned at h
    rw [hd] at h
    simp only [FloatOrAutoP, Except.ok.injEq] at h
    unfold isDefaultOp getOp
    rw [hd, ← h]
    exact hM.1 x
  · intro st s h hd
    unfold assigned at h
    rw [hd] at h
    by_cases hc : pyLower (pyStrip s) = "auto"
    · simp only [FloatOrAutoP, hc, beq_self_eq_true, if_true,
        Except.ok.injEq] at h
      unfold isDefaultOp getOp
      rw [hd, ← h]
      show pyEq M (.str "Auto") (.str s) = true ↔ s = "Auto"
      rw [pyEq_str, beq_iff_eq]
      exact eq_comm
    · simp [FloatOrAutoP, hc] at h
  · intro st n h hd
    unfold assigned at h
    rw [hd] at h
    simp only [IntOrAutoP, Except.ok.injEq] at h
    unfold isDefaultOp getOp
    rw [hd, ← h]
    show ((n == n) : Bool) = true
    simp
  · intro st s h hd
    unfold assigned at h
    rw [hd] at h
    by_cases hc : pyLower (pyStrip s) = "auto"
    · simp only [IntOrAutoP, hc, beq_self_eq_true, if_true,
        Except.ok.injEq] at h
      unfold isDefaultOp getOp
      rw [hd, ← h]
      show pyEq M (.str "Auto") (.str s) = true ↔ s = "Auto"
      rw [pyEq_str, beq_iff_eq]
      exact eq_comm
    · simp [IntOrAutoP, hc] at h
  · intro st h
    refine isDefault_of_assigned_id M hM _ (fun v => rfl) ?_ st h
    intro v w hw
    cases v with
    | str s =>
      by_cases hi : isDist s
      · simp only [DistanceP, hi, if_true, Except.ok.injEq] at hw
        exact hw.symm
      · exact absurd hw (by simp [DistanceP, hi])
    | none => exact absurd hw (by simp [DistanceP])
    | bool b => exact absurd hw (by simp [DistanceP])
    | int n => exact absurd hw (by simp [DistanceP])
    | float x => exact absurd hw (by simp [DistanceP])
  · intro st h
    refine isDefault_of_assigned_id M hM _ (fun v => rfl) ?_ st h
    intro v w hw
    by_cases hm : pyMem M v vl
    · simp only [ChoiceP, hm, if_true, Except.ok.injEq] at hw
      exact hw.symm
    · exact absurd hw (by simp [ChoiceP, hm])
  · intro st h
    refine isDefault_of_assigned_id M hM _ (fun v => rfl) ?_ st h
    intro v w hw
    simp only [ChoiceOrMoreP, Except.ok.injEq] at hw
    exact hw.symm

/-- Witness for C4 amended: a Str setting constructed with "a" is at its
default, and an IntOrAuto setting whose default is the exact text "Auto"
is at its default in the sentinel state. -/
theorem claim_C4_witness :
    isDefaultOp intModel (StrP intModel) ⟨.str "a", .str "a", []⟩ = true ∧
      (isDefaultOp intModel (IntOrAutoP intModel)
          ⟨.str "Auto", .none, []⟩ = true ↔ ("Auto" : String) = "Auto") := by
  have h := claim_C4_isDefault_amended intModel intModel_good
    (fun s => s == "1pt") []
  exact ⟨h.2.2.1 ⟨.str "a", .str "a", []⟩ rfl,
    h.2.2.2.2.2.2.2.2.2.2.2.1 ⟨.str "Auto", .none, []⟩ "Auto" rfl rfl⟩

end Veusz
